import Mathlib

/-!
Shallow embedding of the varta_storage integration
(custom_components/varta_storage: __init__.py, const.py, sensor.py)
and proofs of the specification claims about it.

Conventions of the embedding:
* Python floats are modelled as rationals (exact arithmetic).
* Timestamps are rationals counting seconds.
* A Python value that may appear inside a fetched reply is a `PyObj`:
  a scalar (identified by its string representation), `None`,
  a dataclass instance (ordered field list), a plain dict, or a list.
* Python dicts are ordered association lists with nodup keys preserved by
  insertion; `d[k] = v` is `dinsert`, `d.update(e)` is `dupdate`.
* Fallible Python calls are modelled as `Except`; an exception caught by a
  bare `except Exception` is the `.error` case.
-/

/-- A Python runtime value as seen by `flatten_dataclass`: a scalar
(carrying its repr string), `None`, a dataclass (ordered named fields),
a plain dict, or a list. -/
inductive PyObj : Type where
  | prim : String → PyObj
  | pynone : PyObj
  | dc : List (String × PyObj) → PyObj
  | pydict : List (String × PyObj) → PyObj
  | pylist : List PyObj → PyObj

/-- Keys of a Python dict modelled as an association list. -/
def dkeys (d : List (String × PyObj)) : List String := d.map Prod.fst

/-- Python dict assignment `d[k] = v`: replace the value in place if the key
exists (insertion order kept), otherwise append the new pair. -/
def dinsert (d : List (String × PyObj)) (k : String) (v : PyObj) :
    List (String × PyObj) :=
  if k ∈ dkeys d then d.map (fun p => if p.1 = k then (k, v) else p)
  else d ++ [(k, v)]

/-- Python `d.update(e)`: assign every pair of `e` into `d`, in order. -/
def dupdate (d e : List (String × PyObj)) : List (String × PyObj) :=
  e.foldl (fun acc p => dinsert acc p.1 p.2) d

/-- Python `d.get(k)`: value of the first (hence only) entry with key `k`. -/
def dlookup : List (String × PyObj) → String → Option PyObj
  | [], _ => none
  | p :: rest, k => if p.1 = k then some p.2 else dlookup rest k

/-- The accumulator loop of `flatten_dataclass` (__init__.py lines 28-41):
iterate over the fields/items of a dataclass or dict, recursively flattening
dataclass-valued entries into the accumulator and assigning any other
non-None value under its own field name. -/
def flattenInto : List (String × PyObj) → List (String × PyObj) →
    List (String × PyObj)
  | acc, [] => acc
  | acc, (k, v) :: rest =>
    match v with
    | .dc gs => flattenInto (dupdate acc (flattenInto [] gs)) rest
    | .pynone => flattenInto acc rest
    | .prim s => flattenInto (dinsert acc k (.prim s)) rest
    | .pydict hs => flattenInto (dinsert acc k (.pydict hs)) rest
    | .pylist xs => flattenInto (dinsert acc k (.pylist xs)) rest
termination_by _ l => sizeOf l
decreasing_by all_goals simp_wf <;> omega

/-- `flatten_dataclass` (__init__.py lines 24-46).  The unused path-prefixing
parameter of the source (always passed the empty string and never read when
building keys) is omitted.  A dataclass and a dict are walked by the same
rule; any other non-None object is keyed by its string representation. -/
def flatten_dataclass : PyObj → List (String × PyObj)
  | .dc fields => flattenInto [] fields
  | .pydict items => flattenInto [] items
  | .pynone => []
  | .prim s => [(s, .prim s)]
  | .pylist xs => [(toString (repr xs.length), .pylist xs)]

/-- No entry of the dict maps to Python `None`. -/
def noNone (d : List (String × PyObj)) : Prop :=
  ∀ p ∈ d, p.2 ≠ PyObj.pynone

/-! ## Python rounding and numeric snapshots -/

/-- Python round-half-to-even of a rational to an integer. -/
def roundHalfEven (q : ℚ) : ℤ :=
  let f := ⌊q⌋
  let r := q - f
  if r < 1 / 2 then f
  else if 1 / 2 < r then f + 1
  else if f % 2 = 0 then f else f + 1

/-- Python `round(q, n)` on the ideal (rational) value. -/
def pyround (q : ℚ) (n : ℕ) : ℚ :=
  (roundHalfEven (q * 10 ^ n) : ℚ) / 10 ^ n

/-- A numeric snapshot: the flat coordinator data with its numeric fields,
i.e. the view `coordinator.data.get(key)` used by the calculating sensors. -/
def snapGet (d : List (String × ℚ)) (k : String) : Option ℚ :=
  (d.find? (fun p => p.1 = k)).map Prod.snd

/-! ## VartaRiemannSensor (sensor.py lines 146-270) -/

/-- Integration state of `VartaRiemannSensor`: `_total_energy`,
`_last_power`, `_last_update` (sensor.py lines 184-187). -/
structure RiemannState where
  total_energy : ℚ
  last_power : Option ℚ
  last_update : Option ℚ
deriving DecidableEq

/-- Initial integration state set in `__init__` (sensor.py lines 185-187). -/
def riemann_init : RiemannState := ⟨0, none, none⟩

/-- The state-restore step of `VartaRiemannSensor.async_added_to_hass`
(sensor.py lines 195-203).  The input is the persisted last state:
`none` when `async_get_last_state()` returned `None`, otherwise the outcome
of `float(last_state.state)` (`.ok v` when the persisted string parses as a
number, `.error ()` when `float` raises `ValueError`/`TypeError`).
Returns the restored `_total_energy` together with a flag recording whether
a warning was logged. -/
def riemann_restore (last_state : Option (Except Unit ℚ)) : ℚ × Bool :=
  match last_state with
  | none => (riemann_init.total_energy, false)
  | some (.ok v) => (v, false)
  | some (.error _) => (0, true)

/-- One tick of `VartaRiemannSensor._async_integrate` (sensor.py lines
221-259).  `data` is `coordinator.data` (`none` when absent), holding the
numeric power fields; `now` is the wall-clock time of the tick in seconds
(`dt_util.utcnow()`). -/
def riemann_integrate (source_key : String) (st : RiemannState)
    (data : Option (List (String × ℚ))) (now : ℚ) : RiemannState :=
  match data with
  | none => st
  | some d =>
    match snapGet d source_key with
    | none => st
    | some p0 =>
      let current_power := |p0|
      let st1 :=
        match st.last_power, st.last_update with
        | some lp, some lu =>
          let time_delta := (now - lu) / 3600
          if 0 < time_delta ∧ time_delta < 1 then
            { st with total_energy :=
                st.total_energy + (current_power + lp) / 2 * time_delta / 1000 }
          else st
        | _, _ => st
      { st1 with last_power := some current_power, last_update := some now }

/-- The `native_value` property of `VartaRiemannSensor` (sensor.py lines
267-270): the rounded total, or `0.0` when the total is falsy. -/
def riemann_native_value (st : RiemannState) : ℚ :=
  if st.total_energy ≠ 0 then pyround st.total_energy 6 else 0

/-- The reachable-state invariant of the integrator: `_last_power` is only
ever written as `abs(float(current_power))` (sensor.py line 236), so it is
never negative; the initial state and the restored state leave it unset. -/
def RiemannInv (st : RiemannState) : Prop :=
  ∀ lp, st.last_power = some lp → 0 ≤ lp

/-! ## VartaCalculatedSensor (sensor.py lines 273-553) -/

/-- Daily tracking state of `VartaCalculatedSensor` (sensor.py lines
310-316) together with the published `_attr_native_value`. -/
structure CalcState where
  daily_import : ℚ
  daily_export : ℚ
  last_import_total : Option ℚ
  last_export_total : Option ℚ
  last_reset_date : Option String
  native_value : Option ℚ
deriving DecidableEq

/-- Initial state set in `__init__` (sensor.py lines 311-315); no value has
been published yet. -/
def calc_init : CalcState :=
  { daily_import := 0
    daily_export := 0
    last_import_total := none
    last_export_total := none
    last_reset_date := none
    native_value := none }

/-- The state-restore step of `VartaCalculatedSensor.async_added_to_hass`
for the two daily sensors (sensor.py lines 323-332).  The input is `none`
when no last state exists; otherwise the outcome of `float(last_state.state)`
paired with the persisted `last_reset_date` attribute.  On a parse failure
the `except` clause does nothing. -/
def calc_restore (st : CalcState)
    (last_state : Option (Except Unit ℚ × Option String)) : CalcState :=
  match last_state with
  | none => st
  | some (.ok v, d) => { st with native_value := some v, last_reset_date := d }
  | some (.error _, _) => st

/-- `VartaCalculatedSensor._calculate_daily_net_import` (sensor.py lines
388-408).  `today` is `dt_util.now().date().isoformat()`; `cgi` is the
numeric view of `cgi_data.get`.  Returns the mutated state and the value
the method returns. -/
def calculate_daily_net_import (st : CalcState) (today : String)
    (cgi : String → Option ℚ) : CalcState × ℚ :=
  let st :=
    if st.last_reset_date ≠ some today then
      { st with daily_import := 0, last_import_total := none,
                last_reset_date := some today }
    else st
  match cgi "total_grid_ac_dc" with
  | none => (st, st.daily_import)
  | some current_total =>
    let st :=
      match st.last_import_total with
      | some l =>
        if current_total - l > 0 then
          { st with daily_import := st.daily_import + (current_total - l) }
        else st
      | none => st
    let st := { st with last_import_total := some current_total }
    (st, pyround st.daily_import 3)

/-- `VartaCalculatedSensor._calculate_daily_net_export` (sensor.py lines
410-430), identical to the import accumulator but fed by the
`total_grid_dc_ac` counter. -/
def calculate_daily_net_export (st : CalcState) (today : String)
    (cgi : String → Option ℚ) : CalcState × ℚ :=
  let st :=
    if st.last_reset_date ≠ some today then
      { st with daily_export := 0, last_export_total := none,
                last_reset_date := some today }
    else st
  match cgi "total_grid_dc_ac" with
  | none => (st, st.daily_export)
  | some current_total =>
    let st :=
      match st.last_export_total with
      | some l =>
        if current_total - l > 0 then
          { st with daily_export := st.daily_export + (current_total - l) }
        else st
      | none => st
    let st := { st with last_export_total := some current_total }
    (st, pyround st.daily_export 3)

/-- One tick of `VartaCalculatedSensor._async_calculate` for the
`dailyNetGridImport` sensor (sensor.py lines 350-386): no-op while the
modbus coordinator has no data, otherwise run the calculation and publish
its result. -/
def calc_tick_daily_import (st : CalcState)
    (modbus_data : Option (String → Option ℚ)) (cgi : String → Option ℚ)
    (today : String) : CalcState :=
  match modbus_data with
  | none => st
  | some _ =>
    let r := calculate_daily_net_import st today cgi
    { r.1 with native_value := some r.2 }

/-- One tick of `VartaCalculatedSensor._async_calculate` for the
`dailyNetGridExport` sensor. -/
def calc_tick_daily_export (st : CalcState)
    (modbus_data : Option (String → Option ℚ)) (cgi : String → Option ℚ)
    (today : String) : CalcState :=
  match modbus_data with
  | none => st
  | some _ =>
    let r := calculate_daily_net_export st today cgi
    { r.1 with native_value := some r.2 }

/-- `VartaCalculatedSensor._calculate_battery_efficiency` (sensor.py lines
432-444).  The flattened snapshot never stores `None` values, so
`cgi_data.get` is modelled as an optional numeric lookup and the source line
`charged is None or discharged is None` is the `none` case of the match. -/
def calculate_battery_efficiency (cgi : String → Option ℚ) : Option ℚ :=
  match cgi "total_inverter_ac_dc", cgi "total_inverter_dc_ac" with
  | some charged, some discharged =>
    if charged = 0 then none
    else some (min (discharged / charged * 100) 100)
  | _, _ => none

/-- `VartaCalculatedSensor._calculate_self_sufficiency` (sensor.py lines
446-467).  `cgi_data.get(key, 0)` defaults an absent counter to 0; the
`is None` guard of the source is unreachable because flattened snapshots
never store `None` values. -/
def calculate_self_sufficiency (_modbus_data : String → Option ℚ)
    (cgi : String → Option ℚ) : Option ℚ :=
  let grid_import := (cgi "total_grid_ac_dc").getD 0
  let battery_discharge := (cgi "total_inverter_dc_ac").getD 0
  let total_consumption := grid_import + battery_discharge
  if total_consumption = 0 then some 100
  else some (min (max (battery_discharge / total_consumption * 100) 0) 100)

/-! ## State and error code lookups (const.py lines 40-98) -/

/-- `VARTA_STATE_MAP` (const.py lines 40-53). -/
def VARTA_STATE_MAP : List (ℤ × String) :=
  [(0, "Busy (Beschaeftigt)"),
   (1, "Run (Betrieb)"),
   (2, "Charge (Laden)"),
   (3, "Discharge (Entladen)"),
   (4, "Standby"),
   (5, "Error (Fehler)"),
   (6, "Passive (Service)"),
   (7, "Islanding (Inselbetrieb)"),
   (8, "Grid Outage (Netzausfall)"),
   (9, "Self Test (Selbsttest)"),
   (10, "Update"),
   (11, "Maintenance (Wartung)")]

/-- `VARTA_ERROR_MAP` (const.py lines 58-82). -/
def VARTA_ERROR_MAP : List (ℤ × String) :=
  [(0, "No Error (Kein Fehler)"),
   (1, "General Error (Allgemeiner Fehler)"),
   (2, "Battery Error (Batteriefehler)"),
   (3, "Inverter Error (Wechselrichterfehler)"),
   (4, "Grid Error (Netzfehler)"),
   (5, "Communication Error (Kommunikationsfehler)"),
   (6, "Temperature Error (Temperaturfehler)"),
   (7, "Overcurrent (Ueberstrom)"),
   (8, "Overvoltage (Ueberspannung)"),
   (9, "Undervoltage (Unterspannung)"),
   (10, "Overtemperature (Uebertemperatur)"),
   (11, "Undertemperature (Untertemperatur)"),
   (12, "Isolation Error (Isolationsfehler)"),
   (13, "Cell Imbalance (Zellenungleichgewicht)"),
   (14, "BMS Error (BMS-Fehler)"),
   (15, "EMS Error (EMS-Fehler)"),
   (16, "ENS Error (ENS-Fehler)"),
   (17, "Fan Error (Luefterfehler)"),
   (18, "Fuse Error (Sicherungsfehler)"),
   (19, "Relay Error (Relaisfehler)"),
   (20, "Sensor Error (Sensorfehler)"),
   (255, "Unknown Error (Unbekannter Fehler)")]

/-- Lookup of an integer key in a mapping table. -/
def mapLookup (m : List (ℤ × String)) (k : ℤ) : Option String :=
  (m.find? (fun p => p.1 = k)).map Prod.snd

/-- Python `dict.get(k, default)` on an integer-keyed mapping table. -/
def mapGetD (m : List (ℤ × String)) (k : ℤ) (dflt : String) : String :=
  (mapLookup m k).getD dflt

/-- `get_state_text` (const.py lines 85-89). -/
def get_state_text : Option ℤ → String
  | none => "Unknown"
  | some state_code =>
    mapGetD VARTA_STATE_MAP state_code
      ("Unknown State (" ++ toString state_code ++ ")")

/-- `get_error_text` (const.py lines 92-98), with its early return for
code 0. -/
def get_error_text : Option ℤ → String
  | none => "Unknown"
  | some error_code =>
    if error_code = 0 then "No Error (Kein Fehler)"
    else
      mapGetD VARTA_ERROR_MAP error_code
        ("Unknown Error (" ++ toString error_code ++ ")")

/-! ## Fetch with retry (__init__.py lines 90-252) -/

/-- The underlying device library call of the Modbus channel.  The argument
numbers the invocation within one poll cycle (0 = first attempt, 1 =
retry); `.error` is an exception caught by `except Exception`. -/
structure ModbusClient where
  get_all_data_modbus : ℕ → Except Unit PyObj

/-- The body of `sync_update` inside `async_update_modbus` (__init__.py
lines 93-123): call the device once, on any exception call it exactly once
more, on a second exception raise `UpdateFailed` with the channel-naming
message; on success (either attempt) return the flattened reply.  The
second component counts the device-call invocations made. -/
def modbus_sync_update (c : ModbusClient) :
    Except String (List (String × PyObj)) × ℕ :=
  match c.get_all_data_modbus 0 with
  | .ok r => (.ok (flatten_dataclass r), 1)
  | .error _ =>
    match c.get_all_data_modbus 1 with
    | .ok r => (.ok (flatten_dataclass r), 2)
    | .error _ =>
      (.error "Can not retrieve Modbus Data from the VARTA Device.", 2)

/-- The underlying device library calls of the CGI channel, one per getter,
each numbered by the poll-cycle attempt in which it runs. -/
structure CgiClient where
  get_ems_cgi : ℕ → Except Unit PyObj
  get_energy_cgi : ℕ → Except Unit PyObj
  get_info_cgi : ℕ → Except Unit PyObj
  get_service_cgi : ℕ → Except Unit PyObj

/-- The charge-cycles post-processing (__init__.py lines 166-171): if
`energy_data.total_charge_cycles` is a non-empty list, replace it with its
first element. -/
def normalize_charge_cycles : PyObj → PyObj
  | .dc fs =>
    .dc (fs.map (fun p =>
      if p.1 = "total_charge_cycles" then
        (p.1, match p.2 with
              | .pylist (x :: _) => x
              | v => v)
      else p))
  | v => v

/-- One attempt of the CGI `sync_update` try-block (__init__.py lines
135-178): fetch the four CGI data objects, normalize the charge cycles and
build the `VartaStorageCgiData` container.  An exception in any getter
fails the whole attempt.  Returns the container together with the
`ems_data` object, which the post-processing after the try/except reads. -/
def cgi_attempt (c : CgiClient) (n : ℕ) : Except Unit (PyObj × PyObj) := do
  let ems_data ← c.get_ems_cgi n
  let energy_data ← c.get_energy_cgi n
  let info_data ← c.get_info_cgi n
  let service_data ← c.get_service_cgi n
  let energy_data := normalize_charge_cycles energy_data
  pure (PyObj.dc [("ems_data", ems_data), ("energy_data", energy_data),
                  ("info_data", info_data), ("service_data", service_data)],
        ems_data)

/-- Python `hasattr(obj, name) and getattr(obj, name) is not None` for a
dataclass field, used by the nested-EMS extraction. -/
def dcField (obj : PyObj) (name : String) : Option PyObj :=
  match obj with
  | .dc fs =>
    match dlookup fs name with
    | some PyObj.pynone => none
    | some v => some v
    | none => none
  | _ => none

/-- The post-processing after the CGI try/except (__init__.py lines
235-246): flatten the container, then merge the flattening of the nested
`wr_data`, `emeter_data` and `ens_data` of `ems_data` when present. -/
def cgi_flatten_result (result ems_data : PyObj) : List (String × PyObj) :=
  let flat_data := flatten_dataclass result
  let flat_data :=
    match dcField ems_data "wr_data" with
    | some w => dupdate flat_data (flatten_dataclass w)
    | none => flat_data
  let flat_data :=
    match dcField ems_data "emeter_data" with
    | some w => dupdate flat_data (flatten_dataclass w)
    | none => flat_data
  match dcField ems_data "ens_data" with
  | some w => dupdate flat_data (flatten_dataclass w)
  | none => flat_data

/-- The body of `sync_update` inside `async_update_cgi` (__init__.py lines
134-246): one attempt, on failure exactly one more, on a second failure
`UpdateFailed` naming the CGI channel.  The second component counts the
attempts made. -/
def cgi_sync_update (c : CgiClient) :
    Except String (List (String × PyObj)) × ℕ :=
  match cgi_attempt c 0 with
  | .ok (result, ems_data) => (.ok (cgi_flatten_result result ems_data), 1)
  | .error _ =>
    match cgi_attempt c 1 with
    | .ok (result, ems_data) => (.ok (cgi_flatten_result result ems_data), 2)
    | .error _ =>
      (.error "Can not retrieve CGI Data from the VARTA Device.", 2)

/-- Modelled from the spec: the `DataUpdateCoordinator` cache (the host
platform machinery behind `PollingCoordinator`, not part of this
repository).  Per spec section 4.2, on success the cached Snapshot is
replaced wholesale; a failed poll leaves the last good Snapshot (or its
absence) in place. -/
def coordinator_apply (prev : Option (List (String × PyObj)))
    (res : Except String (List (String × PyObj))) :
    Option (List (String × PyObj)) :=
  match res with
  | .ok s => some s
  | .error _ => prev

/-! ## Helper lemmas -/

theorem dkeys_dinsert (d : List (String × PyObj)) (k : String) (v : PyObj) :
    dkeys (dinsert d k v) = if k ∈ dkeys d then dkeys d else dkeys d ++ [k] := by
  unfold dinsert
  split
  · simp only [if_pos ‹k ∈ dkeys d›, dkeys, List.map_map]
    apply List.map_congr_left
    intro p _
    by_cases h : p.1 = k <;> simp [h]
  · simp [dkeys, ‹¬ k ∈ dkeys d›]

theorem nodup_dkeys_dinsert {d : List (String × PyObj)} (k : String) (v : PyObj)
    (h : (dkeys d).Nodup) : (dkeys (dinsert d k v)).Nodup := by
  rw [dkeys_dinsert]
  split
  · exact h
  · exact h.append (List.nodup_singleton k)
      (fun a ha hb => ‹k ∉ dkeys d› ((List.mem_singleton.mp hb) ▸ ha))

theorem noNone_dinsert {d : List (String × PyObj)} {k : String} {v : PyObj}
    (hd : noNone d) (hv : v ≠ PyObj.pynone) : noNone (dinsert d k v) := by
  intro p hp
  unfold dinsert at hp
  split at hp
  · rcases List.mem_map.mp hp with ⟨q, hq, rfl⟩
    by_cases h : q.1 = k
    · rw [if_pos h]
      exact hv
    · rw [if_neg h]
      exact hd q hq
  · rcases List.mem_append.mp hp with h | h
    · exact hd p h
    · simp only [List.mem_singleton] at h
      subst h
      exact hv

theorem nodup_dkeys_dupdate {d e : List (String × PyObj)}
    (hd : (dkeys d).Nodup) : (dkeys (dupdate d e)).Nodup := by
  induction e generalizing d with
  | nil => exact hd
  | cons p rest ih =>
    unfold dupdate
    simp only [List.foldl_cons]
    exact ih (nodup_dkeys_dinsert p.1 p.2 hd)

theorem noNone_dupdate {d e : List (String × PyObj)}
    (hd : noNone d) (he : noNone e) : noNone (dupdate d e) := by
  induction e generalizing d with
  | nil => exact hd
  | cons p rest ih =>
    unfold dupdate
    simp only [List.foldl_cons]
    refine ih (noNone_dinsert hd (he p (by simp))) ?_
    intro q hq
    exact he q (by simp [hq])

theorem nodup_dkeys_flattenInto (acc l : List (String × PyObj))
    (h : (dkeys acc).Nodup) : (dkeys (flattenInto acc l)).Nodup := by
  induction acc, l using flattenInto.induct with
  | case1 acc => simpa [flattenInto] using h
  | case2 acc k gs rest ih1 ih2 =>
    rw [flattenInto]
    exact ih2 (nodup_dkeys_dupdate h)
  | case3 acc k rest ih =>
    rw [flattenInto]
    exact ih h
  | case4 acc k s rest ih =>
    rw [flattenInto]
    exact ih (nodup_dkeys_dinsert _ _ h)
  | case5 acc k hs rest ih =>
    rw [flattenInto]
    exact ih (nodup_dkeys_dinsert _ _ h)
  | case6 acc k xs rest ih =>
    rw [flattenInto]
    exact ih (nodup_dkeys_dinsert _ _ h)

theorem noNone_flattenInto (acc l : List (String × PyObj))
    (h : noNone acc) : noNone (flattenInto acc l) := by
  induction acc, l using flattenInto.induct with
  | case1 acc => simpa [flattenInto] using h
  | case2 acc k gs rest ih1 ih2 =>
    rw [flattenInto]
    refine ih2 (noNone_dupdate h (ih1 ?_))
    intro p hp
    simp at hp
  | case3 acc k rest ih =>
    rw [flattenInto]
    exact ih h
  | case4 acc k s rest ih =>
    rw [flattenInto]
    exact ih (noNone_dinsert h (by intro hc; cases hc))
  | case5 acc k hs rest ih =>
    rw [flattenInto]
    exact ih (noNone_dinsert h (by intro hc; cases hc))
  | case6 acc k xs rest ih =>
    rw [flattenInto]
    exact ih (noNone_dinsert h (by intro hc; cases hc))

theorem noNone_flatten_dataclass (obj : PyObj) :
    noNone (flatten_dataclass obj) := by
  cases obj with
  | dc fields => exact noNone_flattenInto [] fields (by intro p hp; simp at hp)
  | pydict items => exact noNone_flattenInto [] items (by intro p hp; simp at hp)
  | pynone => intro p hp; simp [flatten_dataclass] at hp
  | prim s =>
    intro p hp
    simp only [flatten_dataclass, List.mem_singleton] at hp
    subst hp
    intro hc
    cases hc
  | pylist xs =>
    intro p hp
    simp only [flatten_dataclass, List.mem_singleton] at hp
    subst hp
    intro hc
    cases hc

theorem nodup_dkeys_flatten_dataclass (obj : PyObj) :
    (dkeys (flatten_dataclass obj)).Nodup := by
  cases obj with
  | dc fields => exact nodup_dkeys_flattenInto [] fields (by simp [dkeys])
  | pydict items => exact nodup_dkeys_flattenInto [] items (by simp [dkeys])
  | pynone => simp [flatten_dataclass, dkeys]
  | prim s => simp [flatten_dataclass, dkeys]
  | pylist xs => simp [flatten_dataclass, dkeys]

theorem dlookup_dinsert (d : List (String × PyObj)) (k : String) (v : PyObj) :
    dlookup (dinsert d k v) k = some v := by
  unfold dinsert
  by_cases hmem : k ∈ dkeys d
  · rw [if_pos hmem]
    induction d with
    | nil => simp [dkeys] at hmem
    | cons q rest ih =>
      by_cases h : q.1 = k
      · simp [dlookup, h]
      · have hk : k ∈ dkeys rest := by
          simp only [dkeys, List.map_cons, List.mem_cons] at hmem
          rcases hmem with h1 | h1
          · exact absurd h1.symm h
          · exact h1
        simp only [List.map_cons, if_neg h, dlookup]
        exact ih hk
  · rw [if_neg hmem]
    induction d with
    | nil => simp [dlookup]
    | cons q rest ih =>
      have hqk : ¬ q.1 = k := by
        intro hc
        exact hmem (by simp [dkeys, hc])
      have hk : ¬ k ∈ dkeys rest := by
        intro hc
        refine hmem ?_
        simp only [dkeys, List.map_cons, List.mem_cons]
        right
        simpa [dkeys] using hc
      simp only [List.cons_append, dlookup, if_neg hqk]
      exact ih hk

theorem roundHalfEven_intCast (z : ℤ) : roundHalfEven (z : ℚ) = z := by
  unfold roundHalfEven
  norm_num

theorem pyround_int (z : ℤ) (n : ℕ) : pyround (z : ℚ) n = z := by
  unfold pyround
  have h1 : ((z : ℚ) * 10 ^ n) = ((z * 10 ^ n : ℤ) : ℚ) := by push_cast; ring
  rw [h1, roundHalfEven_intCast]
  push_cast
  have h10 : ((10 : ℚ) ^ n) ≠ 0 := by positivity
  field_simp

theorem riemann_step_mono (key : String) (st : RiemannState)
    (data : Option (List (String × ℚ))) (now : ℚ) (hinv : RiemannInv st) :
    st.total_energy ≤ (riemann_integrate key st data now).total_energy ∧
    RiemannInv (riemann_integrate key st data now) := by
  cases data with
  | none => exact ⟨le_refl _, hinv⟩
  | some d =>
    cases hp : snapGet d key with
    | none =>
      refine ⟨?_, ?_⟩
      · simp [riemann_integrate, hp]
      · intro x hx
        simp only [riemann_integrate, hp] at hx
        exact hinv x hx
    | some p0 =>
      cases hlp : st.last_power with
      | none =>
        refine ⟨?_, ?_⟩
        · simp [riemann_integrate, hp, hlp]
        · intro x hx
          simp [riemann_integrate, hp, hlp] at hx
          subst hx
          exact abs_nonneg p0
      | some lp =>
        cases hlu : st.last_update with
        | none =>
          refine ⟨?_, ?_⟩
          · simp [riemann_integrate, hp, hlp, hlu]
          · intro x hx
            simp [riemann_integrate, hp, hlp, hlu] at hx
            subst hx
            exact abs_nonneg p0
        | some lu =>
          refine ⟨?_, ?_⟩
          · simp only [riemann_integrate, hp, hlp, hlu]
            split
            · rename_i hcond
              have h2 : 0 ≤ lp := hinv lp hlp
              have h3 : 0 ≤ (now - lu) / 3600 := le_of_lt hcond.1
              have hinc : 0 ≤ (|p0| + lp) / 2 * ((now - lu) / 3600) / 1000 :=
                div_nonneg (mul_nonneg (div_nonneg
                  (add_nonneg (abs_nonneg _) h2) (by norm_num)) h3)
                  (by norm_num)
              simp only
              linarith
            · exact le_refl _
          · intro x hx
            simp only [riemann_integrate, hp, hlp, hlu] at hx
            have hxx : |p0| = x := by simpa using hx
            exact hxx ▸ abs_nonneg p0

/-! ## Claims -/

/-- C4: fed the counter sequence [10, 15, 12, 20] on ticks within one
calendar day and starting with no previous counter value, each daily
accumulator reaches a cumulative contribution of 5 + 0 + 8 = 13; the
decrease from 15 to 12 contributes exactly 0, never a negative delta. -/
theorem C4_daily_accumulator_sequence (today : String)
    (md : String → Option ℚ) :
    ((calc_tick_daily_import (calc_tick_daily_import (calc_tick_daily_import
       (calc_tick_daily_import calc_init (some md)
         (fun k => if k = "total_grid_ac_dc" then some 10 else none) today)
       (some md)
       (fun k => if k = "total_grid_ac_dc" then some 15 else none) today)
       (some md)
       (fun k => if k = "total_grid_ac_dc" then some 12 else none) today)
       (some md)
       (fun k => if k = "total_grid_ac_dc" then some 20 else none)
       today).daily_import = 13 ∧
     (calc_tick_daily_import (calc_tick_daily_import (calc_tick_daily_import
       (calc_tick_daily_import calc_init (some md)
         (fun k => if k = "total_grid_ac_dc" then some 10 else none) today)
       (some md)
       (fun k => if k = "total_grid_ac_dc" then some 15 else none) today)
       (some md)
       (fun k => if k = "total_grid_ac_dc" then some 12 else none) today)
       (some md)
       (fun k => if k = "total_grid_ac_dc" then some 20 else none)
       today).native_value = some 13) ∧
    ((calc_tick_daily_export (calc_tick_daily_export (calc_tick_daily_export
       (calc_tick_daily_export calc_init (some md)
         (fun k => if k = "total_grid_dc_ac" then some 10 else none) today)
       (some md)
       (fun k => if k = "total_grid_dc_ac" then some 15 else none) today)
       (some md)
       (fun k => if k = "total_grid_dc_ac" then some 12 else none) today)
       (some md)
       (fun k => if k = "total_grid_dc_ac" then some 20 else none)
       today).daily_export = 13 ∧
     (calc_tick_daily_export (calc_tick_daily_export (calc_tick_daily_export
       (calc_tick_daily_export calc_init (some md)
         (fun k => if k = "total_grid_dc_ac" then some 10 else none) today)
       (some md)
       (fun k => if k = "total_grid_dc_ac" then some 15 else none) today)
       (some md)
       (fun k => if k = "total_grid_dc_ac" then some 12 else none) today)
       (some md)
       (fun k => if k = "total_grid_dc_ac" then some 20 else none)
       today).native_value = some 13) := by
  have h0 : pyround 0 3 = 0 := by simpa using pyround_int 0 3
  have h5 : pyround 5 3 = 5 := by simpa using pyround_int 5 3
  have h13 : pyround 13 3 = 13 := by simpa using pyround_int 13 3
  constructor
  · have s1 : calc_tick_daily_import calc_init (some md)
        (fun k => if k = "total_grid_ac_dc" then some (10:ℚ) else none) today
        = { daily_import := 0, daily_export := 0, last_import_total := some 10,
            last_export_total := none, last_reset_date := some today,
            native_value := some 0 } := by
      simp [calc_tick_daily_import, calculate_daily_net_import, calc_init, h0]
    have s2 : calc_tick_daily_import
        { daily_import := 0, daily_export := 0, last_import_total := some 10,
          last_export_total := none, last_reset_date := some today,
          native_value := some (0:ℚ) } (some md)
        (fun k => if k = "total_grid_ac_dc" then some (15:ℚ) else none) today
        = { daily_import := 5, daily_export := 0, last_import_total := some 15,
            last_export_total := none, last_reset_date := some today,
            native_value := some 5 } := by
      norm_num [calc_tick_daily_import, calculate_daily_net_import, h5]
    have s3 : calc_tick_daily_import
        { daily_import := 5, daily_export := 0, last_import_total := some 15,
          last_export_total := none, last_reset_date := some today,
          native_value := some (5:ℚ) } (some md)
        (fun k => if k = "total_grid_ac_dc" then some (12:ℚ) else none) today
        = { daily_import := 5, daily_export := 0, last_import_total := some 12,
            last_export_total := none, last_reset_date := some today,
            native_value := some 5 } := by
      norm_num [calc_tick_daily_import, calculate_daily_net_import, h5]
    have s4 : calc_tick_daily_import
        { daily_import := 5, daily_export := 0, last_import_total := some 12,
          last_export_total := none, last_reset_date := some today,
          native_value := some (5:ℚ) } (some md)
        (fun k => if k = "total_grid_ac_dc" then some (20:ℚ) else none) today
        = { daily_import := 13, daily_export := 0, last_import_total := some 20,
            last_export_total := none, last_reset_date := some today,
            native_value := some 13 } := by
      norm_num [calc_tick_daily_import, calculate_daily_net_import, h13]
    rw [s1, s2, s3, s4]
    exact ⟨rfl, rfl⟩
  · have s1 : calc_tick_daily_export calc_init (some md)
        (fun k => if k = "total_grid_dc_ac" then some (10:ℚ) else none) today
        = { daily_import := 0, daily_export := 0, last_import_total := none,
            last_export_total := some 10, last_reset_date := some today,
            native_value := some 0 } := by
      simp [calc_tick_daily_export, calculate_daily_net_export, calc_init, h0]
    have s2 : calc_tick_daily_export
        { daily_import := 0, daily_export := 0, last_import_total := none,
          last_export_total := some 10, last_reset_date := some today,
          native_value := some (0:ℚ) } (some md)
        (fun k => if k = "total_grid_dc_ac" then some (15:ℚ) else none) today
        = { daily_import := 0, daily_export := 5, last_import_total := none,
            last_export_total := some 15, last_reset_date := some today,
            native_value := some 5 } := by
      norm_num [calc_tick_daily_export, calculate_daily_net_export, h5]
    have s3 : calc_tick_daily_export
        { daily_import := 0, daily_export := 5, last_import_total := none,
          last_export_total := some 15, last_reset_date := some today,
          native_value := some (5:ℚ) } (some md)
        (fun k => if k = "total_grid_dc_ac" then some (12:ℚ) else none) today
        = { daily_import := 0, daily_export := 5, last_import_total := none,
            last_export_total := some 12, last_reset_date := some today,
            native_value := some 5 } := by
      norm_num [calc_tick_daily_export, calculate_daily_net_export, h5]
    have s4 : calc_tick_daily_export
        { daily_import := 0, daily_export := 5, last_import_total := none,
          last_export_total := some 12, last_reset_date := some today,
          native_value := some (5:ℚ) } (some md)
        (fun k => if k = "total_grid_dc_ac" then some (20:ℚ) else none) today
        = { daily_import := 0, daily_export := 13, last_import_total := none,
            last_export_total := some 20, last_reset_date := some today,
            native_value := some 13 } := by
      norm_num [calc_tick_daily_export, calculate_daily_net_export, h13]
    rw [s1, s2, s3, s4]
    exact ⟨rfl, rfl⟩

/-- C5: battery efficiency is unavailable whenever the charged counter is
absent or 0 (never a division error), is otherwise 100 × discharged /
charged capped at 100, and at charged = 10, discharged = 12 is exactly
100. -/
theorem C5_battery_efficiency :
    (∀ cgi : String → Option ℚ,
      (cgi "total_inverter_ac_dc" = none →
        calculate_battery_efficiency cgi = none) ∧
      (cgi "total_inverter_ac_dc" = some 0 →
        calculate_battery_efficiency cgi = none) ∧
      (∀ charged discharged : ℚ,
        cgi "total_inverter_ac_dc" = some charged →
        cgi "total_inverter_dc_ac" = some discharged → charged ≠ 0 →
        calculate_battery_efficiency cgi
          = some (min (discharged / charged * 100) 100)) ∧
      (∀ r : ℚ, calculate_battery_efficiency cgi = some r → r ≤ 100)) ∧
    calculate_battery_efficiency
      (fun k => if k = "total_inverter_ac_dc" then some 10
                else if k = "total_inverter_dc_ac" then some 12
                else none) = some 100 := by
  constructor
  · intro cgi
    refine ⟨?_, ?_, ?_, ?_⟩
    · intro h
      simp [calculate_battery_efficiency, h]
    · intro h
      cases hd : cgi "total_inverter_dc_ac" <;>
        simp [calculate_battery_efficiency, h, hd]
    · intro charged discharged hc hd hne
      simp [calculate_battery_efficiency, hc, hd, hne]
    · intro r hr
      unfold calculate_battery_efficiency at hr
      cases hc : cgi "total_inverter_ac_dc" with
      | none => rw [hc] at hr; cases hr
      | some c =>
        cases hd : cgi "total_inverter_dc_ac" with
        | none => rw [hc, hd] at hr; cases hr
        | some d =>
          rw [hc, hd] at hr
          by_cases hz : c = 0
          · simp [hz] at hr
          · simp only [if_neg hz, Option.some_inj] at hr
            rw [← hr]
            exact min_le_right _ _
  · have hk : ("total_inverter_dc_ac" : String) ≠ "total_inverter_ac_dc" := by
      decide
    norm_num [calculate_battery_efficiency, hk]

/-- C6: self-sufficiency is exactly 100 when grid-import plus
battery-discharge is 0 (in particular when both counters are absent or 0),
and otherwise 100 × battery-discharge / (grid-import + battery-discharge)
clamped to [0, 100]. -/
theorem C6_self_sufficiency :
    (∀ md cgi : String → Option ℚ,
      ((cgi "total_grid_ac_dc").getD 0 + (cgi "total_inverter_dc_ac").getD 0
          = 0 →
        calculate_self_sufficiency md cgi = some 100) ∧
      ((cgi "total_grid_ac_dc").getD 0 + (cgi "total_inverter_dc_ac").getD 0
          ≠ 0 →
        calculate_self_sufficiency md cgi
          = some (min (max (100 * (cgi "total_inverter_dc_ac").getD 0 /
              ((cgi "total_grid_ac_dc").getD 0 +
               (cgi "total_inverter_dc_ac").getD 0)) 0) 100)) ∧
      (∀ r : ℚ, calculate_self_sufficiency md cgi = some r →
        0 ≤ r ∧ r ≤ 100)) ∧
    calculate_self_sufficiency (fun _ => none) (fun _ => none) = some 100 := by
  constructor
  · intro md cgi
    refine ⟨?_, ?_, ?_⟩
    · intro h
      simp [calculate_self_sufficiency, h]
    · intro h
      simp only [calculate_self_sufficiency, if_neg h]
      congr 2
      ring_nf
    · intro r hr
      unfold calculate_self_sufficiency at hr
      by_cases h : (cgi "total_grid_ac_dc").getD 0 +
          (cgi "total_inverter_dc_ac").getD 0 = 0
      · rw [if_pos h] at hr
        cases hr
        norm_num
      · rw [if_neg h] at hr
        cases hr
        constructor
        · exact le_min (le_max_right _ _) (by norm_num)
        · exact min_le_right _ _
  · norm_num [calculate_self_sufficiency]

/-- C6 witness: the general statement applied to empty snapshots, where
both counters default to 0 and the result is exactly 100. -/
theorem C6_self_sufficiency_witness :
    calculate_self_sufficiency (fun _ => none) (fun _ => none) = some 100 :=
  (C6_self_sufficiency.1 (fun _ => none) (fun _ => none)).1 (by norm_num)

/-- C10: the state-code and error-code lookups are total with explicit
fallbacks: `None` yields "Unknown", a mapped code yields its mapped text,
and an unmapped code yields the fallback string embedding the code. -/
theorem C10_code_text_total :
    get_state_text none = "Unknown" ∧ get_error_text none = "Unknown" ∧
    (∀ (c : ℤ) (s : String), mapLookup VARTA_STATE_MAP c = some s →
      get_state_text (some c) = s) ∧
    (∀ c : ℤ, mapLookup VARTA_STATE_MAP c = none →
      get_state_text (some c) = "Unknown State (" ++ toString c ++ ")") ∧
    (∀ (c : ℤ) (s : String), mapLookup VARTA_ERROR_MAP c = some s →
      get_error_text (some c) = s) ∧
    (∀ c : ℤ, mapLookup VARTA_ERROR_MAP c = none →
      get_error_text (some c) = "Unknown Error (" ++ toString c ++ ")") := by
  refine ⟨rfl, rfl, ?_, ?_, ?_, ?_⟩
  · intro c s h
    simp [get_state_text, mapGetD, h]
  · intro c h
    simp [get_state_text, mapGetD, h]
  · intro c s h
    by_cases hz : c = 0
    · subst hz
      have : s = "No Error (Kein Fehler)" := by
        simpa [mapLookup, VARTA_ERROR_MAP] using h.symm
      simp [get_error_text, this]
    · simp [get_error_text, hz, mapGetD, h]
  · intro c h
    have hz : ¬ c = 0 := by
      intro hc
      subst hc
      simp [mapLookup, VARTA_ERROR_MAP] at h
    simp [get_error_text, hz, mapGetD, h]

/-- C10 witness: the lookups evaluated at `None`, a mapped state code (3),
an unmapped state code (99), the zero error code, a mapped error code (12)
and an unmapped error code (42). -/
theorem C10_code_text_total_witness :
    get_state_text none = "Unknown" ∧
    get_state_text (some 3) = "Discharge (Entladen)" ∧
    get_state_text (some 99) = "Unknown State (99)" ∧
    get_error_text (some 0) = "No Error (Kein Fehler)" ∧
    get_error_text (some 12) = "Isolation Error (Isolationsfehler)" ∧
    get_error_text (some 42) = "Unknown Error (42)" :=
  ⟨C10_code_text_total.1,
   C10_code_text_total.2.2.1 3 _ (by rfl),
   by
     have := C10_code_text_total.2.2.2.1 99 (by rfl)
     simpa using this,
   C10_code_text_total.2.2.2.2.1 0 _ (by rfl),
   C10_code_text_total.2.2.2.2.1 12 _ (by rfl),
   by
     have := C10_code_text_total.2.2.2.2.2 42 (by rfl)
     simpa using this⟩

/-- C9: from any reachable integrator state (one whose stored previous
power, being `abs` of a reading, is non-negative), every sequence of
integration ticks — any snapshot contents, any sample times — leaves the
accumulated energy monotonically non-decreasing. -/
theorem C9_accumulated_energy_monotone (key : String) (st : RiemannState)
    (hinv : RiemannInv st)
    (ticks : List (Option (List (String × ℚ)) × ℚ)) :
    st.total_energy ≤
      (ticks.foldl (fun s t => riemann_integrate key s t.1 t.2)
        st).total_energy := by
  induction ticks generalizing st with
  | nil => exact le_refl _
  | cons t rest ih =>
    have h := riemann_step_mono key st t.1 t.2 hinv
    simp only [List.foldl_cons]
    exact le_trans h.1 (ih (riemann_integrate key st t.1 t.2) h.2)

/-- C9 witness: the monotonicity theorem applied to the initial state and a
concrete two-tick schedule (a 100 W sample at t = 0 s and one at t = 60 s). -/
theorem C9_accumulated_energy_monotone_witness :
    riemann_init.total_energy ≤
      (([(some [("to_grid_power", (100 : ℚ))], (0 : ℚ)),
         (some [("to_grid_power", 100)], 60)]).foldl
        (fun s t => riemann_integrate "to_grid_power" s t.1 t.2)
        riemann_init).total_energy :=
  C9_accumulated_energy_monotone "to_grid_power" riemann_init
    (fun lp h => by simp [riemann_init] at h) _

/-- C1 counterexample: two 100 W samples taken exactly 3600 seconds apart
(snapshot present and source field set on both ticks) accumulate 0 kWh, not
approximately 0.1 kWh — the elapsed time of exactly one hour fails the
strict `time_delta < 1` ceiling of the integrator. -/
theorem C1_counterexample :
    (riemann_integrate "to_grid_power"
       (riemann_integrate "to_grid_power" riemann_init
         (some [("to_grid_power", 100)]) 0)
       (some [("to_grid_power", 100)]) 3600).total_energy = 0 ∧
    ¬ |(riemann_integrate "to_grid_power"
         (riemann_integrate "to_grid_power" riemann_init
           (some [("to_grid_power", 100)]) 0)
         (some [("to_grid_power", 100)]) 3600).total_energy
        - 1 / 10| ≤ 1 / 100 := by
  have s1 : riemann_integrate "to_grid_power" riemann_init
      (some [("to_grid_power", 100)]) 0
      = { total_energy := 0, last_power := some 100,
          last_update := some 0 } := by
    simp [riemann_integrate, riemann_init, snapGet, abs_of_pos]
  have s2 : riemann_integrate "to_grid_power"
      { total_energy := 0, last_power := some 100, last_update := some 0 }
      (some [("to_grid_power", 100)]) 3600
      = { total_energy := 0, last_power := some 100,
          last_update := some 3600 } := by
    norm_num [riemann_integrate, snapGet, abs_of_pos]
  rw [s1, s2]
  norm_num
  rw [abs_of_pos] <;> norm_num

/-- C1 amended: two 100 W samples whose elapsed time t is strictly positive
and strictly under 3600 seconds accumulate the trapezoid
100 · (t/3600) / 1000 kWh, which approaches 0.1 kWh as t approaches one
hour; at exactly 3600 seconds the strict one-hour ceiling excludes the
contribution. -/
theorem C1_amended (t : ℚ) (h1 : 0 < t) (h2 : t < 3600) :
    (riemann_integrate "to_grid_power"
       (riemann_integrate "to_grid_power" riemann_init
         (some [("to_grid_power", 100)]) 0)
       (some [("to_grid_power", 100)]) t).total_energy
      = 100 * (t / 3600) / 1000 := by
  have s1 : riemann_integrate "to_grid_power" riemann_init
      (some [("to_grid_power", 100)]) 0
      = { total_energy := 0, last_power := some 100,
          last_update := some 0 } := by
    simp [riemann_integrate, riemann_init, snapGet, abs_of_pos]
  rw [s1]
  have hc2 : t / 3600 < 1 := by
    rw [div_lt_one (by norm_num : (0 : ℚ) < 3600)]
    exact h2
  simp [riemann_integrate, snapGet, h1, hc2]

/-- C1 witness: the amended statement at t = 3599 s, where the trapezoid is
3599/36000 kWh, within 0.001 of 0.1 kWh. -/
theorem C1_amended_witness :
    (riemann_integrate "to_grid_power"
       (riemann_integrate "to_grid_power" riemann_init
         (some [("to_grid_power", 100)]) 0)
       (some [("to_grid_power", 100)]) 3599).total_energy
      = 100 * ((3599 : ℚ) / 3600) / 1000 :=
  C1_amended 3599 (by norm_num) (by norm_num)

/-- C2: after a restart that restored persisted value 13 and a persisted
reset date equal to today, the first tick with a live grid counter
publishes 0, not a value continuing from 13 — the restore step writes the
persisted value only to the published attribute, never seeding the internal
`_daily_import` accumulator, so the first calculation discards it. -/
theorem C2_restart_drops_restored_value :
    (calc_tick_daily_import
       (calc_restore calc_init (some (Except.ok 13, some "2026-10-12")))
       (some (fun _ => none))
       (fun k => if k = "total_grid_ac_dc" then some 20 else none)
       "2026-10-12").native_value = some 0 ∧
    (calc_restore calc_init
       (some (Except.ok 13, some "2026-10-12"))).native_value = some 13 ∧
    (0 : ℚ) ≠ 13 := by
  have h0 : pyround 0 3 = 0 := by simpa using pyround_int 0 3
  refine ⟨?_, by simp [calc_restore, calc_init], by norm_num⟩
  have hres : calc_restore calc_init (some (Except.ok 13, some "2026-10-12"))
      = { daily_import := 0, daily_export := 0, last_import_total := none,
          last_export_total := none,
          last_reset_date := some "2026-10-12",
          native_value := some 13 } := by
    simp [calc_restore, calc_init]
  rw [hres]
  simp [calc_tick_daily_import, calculate_daily_net_import, h0]

/-- C8 counterexample: when `async_get_last_state()` returns nothing, the
restore step leaves the total at zero but logs no warning, contradicting
the claim that a missing persisted value initializes to zero with a logged
warning. -/
theorem C8_counterexample :
    ¬ ((riemann_restore none).1 = 0 ∧ (riemann_restore none).2 = true) := by
  intro h
  simp [riemann_restore, riemann_init] at h

/-- C8 amended: restoring a numeric persisted value V sets the accumulated
energy to V, and with no further integration the next publish reports
exactly V (shown at V = 5); a non-numeric persisted value initializes to
zero with a logged warning; a missing persisted value leaves the zero
initial value without a warning; no input aborts startup. -/
theorem C8_restore_total (v : ℚ) :
    riemann_restore (some (Except.ok v)) = (v, false) ∧
    riemann_restore (some (Except.error ())) = (0, true) ∧
    riemann_restore none = (0, false) ∧
    riemann_native_value
      (riemann_integrate "to_grid_power"
        { riemann_init with
          total_energy := (riemann_restore (some (Except.ok 5))).1 }
        none 0) = 5 := by
  refine ⟨rfl, rfl, rfl, ?_⟩
  have h5 : pyround 5 6 = 5 := by simpa using pyround_int 5 6
  simp [riemann_integrate, riemann_restore, riemann_native_value,
    riemann_init, h5]

/-- C7: for every nested record input the flattened output holds no
null-valued entries and every field name appears exactly once; a nested
dataclass field is flattened and merged into the accumulated top-level
mapping under its own field names (its enclosing field name and any path
prefix are unused); and an assignment to an existing key overwrites its
value, so the last write wins. -/
theorem C7_flattener :
    (∀ obj : PyObj, noNone (flatten_dataclass obj) ∧
      (dkeys (flatten_dataclass obj)).Nodup) ∧
    (∀ (acc : List (String × PyObj)) (k : String)
       (gs rest : List (String × PyObj)),
      flattenInto acc ((k, PyObj.dc gs) :: rest)
        = flattenInto (dupdate acc (flatten_dataclass (PyObj.dc gs))) rest) ∧
    (∀ (d : List (String × PyObj)) (k : String) (v : PyObj),
      dlookup (dinsert d k v) k = some v) := by
  refine ⟨fun obj => ⟨noNone_flatten_dataclass obj,
    nodup_dkeys_flatten_dataclass obj⟩, ?_, dlookup_dinsert⟩
  intro acc k gs rest
  rw [flattenInto, flatten_dataclass]

/-- C3: for each channel, a fetch whose first device call fails and whose
retry succeeds yields the flattened result of the second call and replaces
the cached snapshot with it; a fetch whose two attempts both fail makes
exactly two device-call attempts, fails with the update-failed message
naming the channel, and leaves the cached snapshot (or its absence)
unchanged. -/
theorem C3_fetch_retry (mc : ModbusClient) (cc : CgiClient)
    (prev : Option (List (String × PyObj))) (r r1 r2 : PyObj) :
    (mc.get_all_data_modbus 0 = .error () →
     mc.get_all_data_modbus 1 = .ok r →
      modbus_sync_update mc = (.ok (flatten_dataclass r), 2) ∧
      coordinator_apply prev (modbus_sync_update mc).1
        = some (flatten_dataclass r)) ∧
    (mc.get_all_data_modbus 0 = .error () →
     mc.get_all_data_modbus 1 = .error () →
      modbus_sync_update mc
        = (.error "Can not retrieve Modbus Data from the VARTA Device.", 2) ∧
      coordinator_apply prev (modbus_sync_update mc).1 = prev) ∧
    (cgi_attempt cc 0 = .error () → cgi_attempt cc 1 = .ok (r1, r2) →
      cgi_sync_update cc = (.ok (cgi_flatten_result r1 r2), 2) ∧
      coordinator_apply prev (cgi_sync_update cc).1
        = some (cgi_flatten_result r1 r2)) ∧
    (cgi_attempt cc 0 = .error () → cgi_attempt cc 1 = .error () →
      cgi_sync_update cc
        = (.error "Can not retrieve CGI Data from the VARTA Device.", 2) ∧
      coordinator_apply prev (cgi_sync_update cc).1 = prev) := by
  refine ⟨?_, ?_, ?_, ?_⟩
  · intro h0 h1
    have he : modbus_sync_update mc = (.ok (flatten_dataclass r), 2) := by
      unfold modbus_sync_update
      rw [h0, h1]
    exact ⟨he, by rw [he]; rfl⟩
  · intro h0 h1
    have he : modbus_sync_update mc
        = (.error "Can not retrieve Modbus Data from the VARTA Device.", 2) := by
      unfold modbus_sync_update
      rw [h0, h1]
    exact ⟨he, by rw [he]; rfl⟩
  · intro h0 h1
    have he : cgi_sync_update cc = (.ok (cgi_flatten_result r1 r2), 2) := by
      unfold cgi_sync_update
      rw [h0, h1]
    exact ⟨he, by rw [he]; rfl⟩
  · intro h0 h1
    have he : cgi_sync_update cc
        = (.error "Can not retrieve CGI Data from the VARTA Device.", 2) := by
      unfold cgi_sync_update
      rw [h0, h1]
    exact ⟨he, by rw [he]; rfl⟩

/-- C3 witness: a Modbus client failing once then returning a one-field
reply, and a CGI client whose getters always raise, evaluated against an
absent previous snapshot and a one-entry previous snapshot respectively. -/
theorem C3_fetch_retry_witness :
    (modbus_sync_update
       { get_all_data_modbus := fun n =>
           if n = 0 then .error ()
           else .ok (.dc [("soc", PyObj.prim "42")]) }
      = (.ok [("soc", PyObj.prim "42")], 2)) ∧
    (cgi_sync_update
       { get_ems_cgi := fun _ => .error (),
         get_energy_cgi := fun _ => .error (),
         get_info_cgi := fun _ => .error (),
         get_service_cgi := fun _ => .error () }
      = (.error "Can not retrieve CGI Data from the VARTA Device.", 2)) ∧
    (coordinator_apply (some [("a", PyObj.prim "1")])
       (cgi_sync_update
         { get_ems_cgi := fun _ => .error (),
           get_energy_cgi := fun _ => .error (),
           get_info_cgi := fun _ => .error (),
           get_service_cgi := fun _ => .error () }).1
      = some [("a", PyObj.prim "1")]) := by
  refine ⟨?_, ?_, ?_⟩
  · have h := (C3_fetch_retry
      { get_all_data_modbus := fun n =>
          if n = 0 then .error ()
          else .ok (.dc [("soc", PyObj.prim "42")]) }
      { get_ems_cgi := fun _ => .error (),
        get_energy_cgi := fun _ => .error (),
        get_info_cgi := fun _ => .error (),
        get_service_cgi := fun _ => .error () }
      none (.dc [("soc", PyObj.prim "42")]) PyObj.pynone PyObj.pynone).1
      rfl rfl
    simpa [flatten_dataclass, flattenInto, dinsert, dkeys] using h.1
  · exact ((C3_fetch_retry
      { get_all_data_modbus := fun n =>
          if n = 0 then .error ()
          else .ok (.dc [("soc", PyObj.prim "42")]) }
      { get_ems_cgi := fun _ => .error (),
        get_energy_cgi := fun _ => .error (),
        get_info_cgi := fun _ => .error (),
        get_service_cgi := fun _ => .error () }
      none PyObj.pynone PyObj.pynone PyObj.pynone).2.2.2 rfl rfl).1
  · exact ((C3_fetch_retry
      { get_all_data_modbus := fun n =>
          if n = 0 then .error ()
          else .ok (.dc [("soc", PyObj.prim "42")]) }
      { get_ems_cgi := fun _ => .error (),
        get_energy_cgi := fun _ => .error (),
        get_info_cgi := fun _ => .error (),
        get_service_cgi := fun _ => .error () }
      (some [("a", PyObj.prim "1")])
      PyObj.pynone PyObj.pynone PyObj.pynone).2.2.2 rfl rfl).2

/-- C5 witness: the efficiency statement applied to an empty snapshot
(charged absent, result unavailable) and to charged = 10, discharged = 12
(result exactly 100). -/
theorem C5_battery_efficiency_witness :
    calculate_battery_efficiency (fun _ => none) = none ∧
    calculate_battery_efficiency
      (fun k => if k = "total_inverter_ac_dc" then some 10
                else if k = "total_inverter_dc_ac" then some 12
                else none) = some (min (12 / 10 * 100) 100) := by
  constructor
  · exact (C5_battery_efficiency.1 (fun _ => none)).1 rfl
  · exact (C5_battery_efficiency.1 _).2.2.1 10 12 (by norm_num)
      (by norm_num; decide) (by norm_num)
